import Mathlib

/-!
Verification of the Cap'n Proto calculator client sample
(`c++/samples/calculator-client-with-properties.c++`) against its
specification.

The sample is a client of a remote calculator service.  The client source
contains the expression trees it builds, the locally implemented
`PowerFunction` callback, and the `main` driver; the calculator service's
evaluation semantics, the `Value`/`Function` capability behaviour and the
RPC transport live elsewhere in the repository and are modelled here from
the specification (each such definition is marked `Modelled from the spec`).

Numeric domain: the spec declares all literals and results floating-point
and notes that every value exercised by the demonstration scenarios is an
exact small integer ("results here are all exact under standard
floating-point rules").  The model therefore uses `Int`, on which all the
claimed computations agree bit-exactly with the floating-point ones.
-/

deriving instance DecidableEq for Except

namespace Calculator

/-- The error taxonomy of the spec (§7).  `unresolvedRef` is an internal
model artifact: the error produced when a `previousResult` handle does not
denote any value in the session store; a live session never produces it. -/
inductive Err where
  | arityError
  | domainError
  | unboundParameterError
  | transportFailure
  | unresolvedRef
deriving DecidableEq

/-- The fixed operator set of `Calculator::Operator` in the schema:
ADD, SUBTRACT, MULTIPLY, DIVIDE. -/
inductive Operator where
  | add
  | subtract
  | multiply
  | divide
deriving DecidableEq

mutual
/-- `Calculator::Function` capability, polymorphic over its three origins
(spec §3 FunctionRef): a built-in operator, a user-defined
`(paramCount, body)` pair registered with `defFunction`, or a
caller-implemented callback exported to the service.  A callback is
modelled as the local function the capability wraps. -/
inductive FunctionRef : Type where
  | operator : Operator → FunctionRef
  | userDefined : Nat → Expr → FunctionRef
  | callback : (List Int → Except Err Int) → FunctionRef

/-- `Calculator::Expression`: a tagged variant of `literal`,
`previousResult` (a ValueRef handle, modelled as an index into the
session's value store), `parameter` (bound only inside a function body)
and `call` (a FunctionRef applied to an ordered parameter list). -/
inductive Expr : Type where
  | literal : Int → Expr
  | previousResult : Nat → Expr
  | parameter : Nat → Expr
  | call : FunctionRef → ExprList → Expr

/-- Ordered sequence of expressions (the `params` list of a `call` node). -/
inductive ExprList : Type where
  | nil : ExprList
  | cons : Expr → ExprList → ExprList
end

/-- Convert a plain list into an `ExprList`. -/
def ExprList.ofList : List Expr → ExprList
  | [] => .nil
  | e :: rest => .cons e (ExprList.ofList rest)

/-- Modelled from the spec (§4.2): applying a built-in operator.  The
server-side evaluator is not under `src/`.  Each operator is binary and
fails with `ArityError` unless given exactly two parameters; DIVIDE
signals `DomainError` on a zero divisor.  (Division is exercised by no
demonstration scenario; its non-zero case is exact integer division
here.) -/
def applyOp (o : Operator) (args : List Int) : Except Err Int :=
  match args with
  | [a, b] =>
    match o with
    | .add => .ok (a + b)
    | .subtract => .ok (a - b)
    | .multiply => .ok (a * b)
    | .divide => if b = 0 then .error .domainError else .ok (a / b)
  | _ => .error .arityError

mutual
/-- Modelled from the spec (§4.4 `evaluate`): the calculator service's
recursive expression evaluation, which is not under `src/`.  `store` is
the session's table of previously produced values (what `previousResult`
ValueRef handles point into); `env` is the parameter binding of the
enclosing function body, empty at top level (a `parameter` node is
"meaningless outside one", §3, and out-of-range indices raise
`UnboundParameterError`, §4.4).  Besides the value, evaluation returns
the invocation log of client-hosted callback capabilities: one entry, the
argument list, per inbound callback call (spec §4.6). -/
def evalExpr (store env : List Int) : Expr → Except Err (Int × List (List Int))
  | .literal n => .ok (n, [])
  | .previousResult i =>
    match store.get? i with
    | some v => .ok (v, [])
    | none => .error .unresolvedRef
  | .parameter i =>
    match env.get? i with
    | some v => .ok (v, [])
    | none => .error .unboundParameterError
  | .call f es =>
    match evalArgs store env es with
    | .error e => .error e
    | .ok (args, tr) =>
      match applyFn store f args with
      | .error e => .error e
      | .ok (v, tr2) => .ok (v, tr ++ tr2)
termination_by structural e => e

/-- Modelled from the spec: left-to-right evaluation of a `call` node's
parameter list, propagating the first error and concatenating the
callback invocation logs. -/
def evalArgs (store env : List Int) : ExprList → Except Err (List Int × List (List Int))
  | .nil => .ok ([], [])
  | .cons e rest =>
    match evalExpr store env e with
    | .error err => .error err
    | .ok (v, tr) =>
      match evalArgs store env rest with
      | .error err => .error err
      | .ok (vs, tr2) => .ok (v :: vs, tr ++ tr2)
termination_by structural es => es

/-- Modelled from the spec (§4.2, §4.4): applying a FunctionRef to
already-evaluated arguments.  An operator checks its fixed arity of 2; a
user-defined function checks `args.length = paramCount` (`ArityError`
otherwise, §4.4) and evaluates its body with `parameter(i)` bound to the
i-th argument; a callback runs the caller-supplied local function and is
recorded once, with its argument list, in the invocation log. -/
def applyFn (store : List Int) : FunctionRef → List Int → Except Err (Int × List (List Int))
  | .operator o, args => (applyOp o args).map (fun v => (v, []))
  | .userDefined n body, args =>
    if args.length = n then evalExpr store args body else .error .arityError
  | .callback cb, args =>
    match cb args with
    | .ok v => .ok (v, [args])
    | .error e => .error e
termination_by structural f _ => f
end

/-- Session-scoped server state: the table of values produced by
`evaluate` calls so far.  A ValueRef handle is an index into it. -/
structure State where
  store : List Int
deriving DecidableEq

/-- Modelled from the spec (§4.4): `getOperator` returns a capability for
one of the four fixed operators; it never fails for a valid tag. -/
def getOperator (o : Operator) : FunctionRef := .operator o

/-- Modelled from the spec (§4.4): `defFunction` registers a reusable
`(paramCount, body)` function and returns a callable capability. -/
def defFunction (paramCount : Nat) (body : Expr) : FunctionRef :=
  .userDefined paramCount body

/-- Modelled from the spec (§4.4): `evaluate` resolves the expression
tree against the session store and returns the new store, the ValueRef
handle of the produced value, and the callback invocation log. -/
def evaluate (s : State) (e : Expr) : Except Err (State × Nat × List (List Int)) :=
  match evalExpr s.store [] e with
  | .ok (v, tr) => .ok (⟨s.store ++ [v]⟩, s.store.length, tr)
  | .error err => .error err

/-- Modelled from the spec (§3 ValueRef): `read` on a Value capability
yields the resolved number; it may be called any number of times. -/
def read (s : State) (ref : Nat) : Except Err Int :=
  match s.store.get? ref with
  | some v => .ok v
  | none => .error .unresolvedRef

mutual
/-- `parameter`-index bound check on a function body (spec §3 invariant):
every `parameter(i)` node occurring in the body itself satisfies `i < n`.
A nested `call`'s FunctionRef is a separate capability whose own body is
bound by its own paramCount, so the check does not descend into it. -/
def paramsBelow (n : Nat) : Expr → Bool
  | .literal _ => true
  | .previousResult _ => true
  | .parameter i => decide (i < n)
  | .call _ es => paramsBelowArgs n es
termination_by structural e => e

/-- `paramsBelow` over a parameter list. -/
def paramsBelowArgs (n : Nat) : ExprList → Bool
  | .nil => true
  | .cons e rest => paramsBelow n e && paramsBelowArgs n rest
termination_by structural es => es
end

end Calculator

namespace Math

/-- Modelled from `math.h` `pow` (an external collaborator of the sample)
at the arguments this client exercises: integral base and nonnegative
integral exponent, where `pow` is exact exponentiation. -/
def pow (b e : Int) : Int := b ^ e.toNat

end Math

namespace PowerFunction

open Calculator

/-- Embedding of `PowerFunction::call` (client source, lines 36–41): the
locally implemented `Calculator::Function` the client exports to the
server.  It requires exactly two parameters (`KJ_REQUIRE(params.size()
== 2, "Wrong number of parameters.")`, a failed requirement failing the
call), reads `params[0]` and `params[1]` only under that check, sets the
result to `pow(params[0], params[1])` and resolves immediately
(`kj::READY_NOW`), issuing no further calls. -/
def call (params : List Int) : Except Err Int :=
  if h : params.length = 2 then
    .ok (Math.pow (params.get ⟨0, by omega⟩) (params.get ⟨1, by omega⟩))
  else
    .error .arityError

end PowerFunction

namespace Pipeline

/-- Modelled from the spec (§5, §6): client-side accounting of one RPC
session at the transport boundary.  `sent` counts calls issued so far
(each new call gets the next index), `exchanges` counts request/response
network exchanges, `suspensions` counts the caller's wait points. -/
structure SessionState where
  sent : Nat
  exchanges : Nat
  suspensions : Nat
deriving DecidableEq

/-- Modelled from the spec (§5, §6): a client step is either `send` —
the non-blocking issue of a call whose target or arguments may be
pipelined off the eventual results of earlier calls, listed by index —
or `wait`, the explicit suspension demanding resolution. -/
inductive Step where
  | send : List Nat → Step
  | wait : Step

/-- Modelled from the spec (§5, §6, §8): `send` never blocks and is legal
exactly when every pipelined dependency names an already-issued call;
`wait` suspends the caller once and performs one request/response
exchange, in which every call pipelined so far travels together
(round-trip minimality, §8). -/
def applyStep (s : SessionState) : Step → Option SessionState
  | .send deps =>
    if deps.all (fun d => decide (d < s.sent)) then
      some ⟨s.sent + 1, s.exchanges, s.suspensions⟩
    else none
  | .wait => some ⟨s.sent, s.exchanges + 1, s.suspensions + 1⟩

/-- Run a sequence of client steps from a session state; `none` marks an
illegal program (a dependency on a call never issued). -/
def run (s : SessionState) : List Step → Option SessionState
  | [] => some s
  | st :: rest =>
    match applyStep s st with
    | some s2 => run s2 rest
    | none => none

/-- A fresh session. -/
def init : SessionState := ⟨0, 0, 0⟩

/-- `chainSends n k`: k dependent calls numbered from n onward, each
pipelined on the result of its predecessor; the first call of the whole
chain (number 0) targets the bootstrap capability and depends on
nothing. -/
def chainSends : Nat → Nat → List Step
  | _, 0 => []
  | n, k + 1 => .send (if n = 0 then [] else [n - 1]) :: chainSends (n + 1) k

/-- A chain of k dependent pipelined calls with the single final wait
(the spec's round-trip-minimality scenario, §8). -/
def chainProgram (k : Nat) : List Step := chainSends 0 k ++ [.wait]

end Pipeline

namespace Client

open Calculator

/-- The `add` FunctionRef `main` obtains via `getOperator(ADD)`. -/
def add : FunctionRef := getOperator .add

/-- The `subtract` FunctionRef obtained via `getOperator(SUBTRACT)`. -/
def subtract : FunctionRef := getOperator .subtract

/-- The `multiply` FunctionRef obtained via `getOperator(MULTIPLY)`. -/
def multiply : FunctionRef := getOperator .multiply

/-- Scenario 1 ("Evaluating a literal"): `request.expression->literal =
123` (line 76). -/
def literalExpr : Expr := .literal 123

/-- Scenario 2 ("Using add and subtract"): the tree for 123 + 45 - 67
built at lines 123–134 — subtract(add(literal 123, literal 45),
literal 67). -/
def addSubtractExpr : Expr :=
  .call subtract (.ofList [.call add (.ofList [.literal 123, .literal 45]), .literal 67])

/-- Scenario 3 ("Pipelining eval() calls"): the tree for 4 * 6 (lines
179–183). -/
def multiplyExpr : Expr := .call multiply (.ofList [.literal 4, .literal 6])

/-- Scenario 3: add(previousResult(multiplyResult), 3) (lines 189–194);
the unread `multiplyResult` ValueRef is handle 0 of the scenario's
session. -/
def add3Expr : Expr := .call add (.ofList [.previousResult 0, .literal 3])

/-- Scenario 3: add(previousResult(multiplyResult), 5) (lines 197–202). -/
def add5Expr : Expr := .call add (.ofList [.previousResult 0, .literal 5])

/-- Scenario 4 ("Defining functions"): the body of f(x, y) =
add(multiply(x, 100), y), built at lines 250–262. -/
def fBody : Expr :=
  .call add (.ofList [.call multiply (.ofList [.parameter 0, .literal 100]), .parameter 1])

/-- The FunctionRef for f, registered with `defFunction(paramCount = 2)`
(lines 245–265). -/
def f : FunctionRef := defFunction 2 fBody

/-- Scenario 4: the body of g(x) = multiply(f(x, add(x, 1)), 2), built at
lines 272–289; the inner call node embeds the capability `f`. -/
def gBody : Expr :=
  .call multiply (.ofList
    [.call f (.ofList [.parameter 0, .call add (.ofList [.parameter 0, .literal 1])]),
     .literal 2])

/-- The FunctionRef for g, registered with `defFunction(paramCount = 1)`
(lines 267–292). -/
def g : FunctionRef := defFunction 1 gBody

/-- Scenario 4: the evaluation request for f(12, 34) (lines 297–303). -/
def fCallExpr : Expr := .call f (.ofList [.literal 12, .literal 34])

/-- Scenario 4: the evaluation request for g(21) (lines 306–310). -/
def gCallExpr : Expr := .call g (.ofList [.literal 21])

/-- Scenario 5 ("Using a callback"): the tree for 2^(4+5) built at lines
347–358 — the call node's function is the client-exported PowerFunction
capability. -/
def powerExpr : Expr :=
  .call (.callback PowerFunction.call)
    (.ofList [.literal 2, .call add (.ofList [.literal 4, .literal 5])])

/-- Scenario 1's assertion: `KJ_ASSERT(response.value == 123)` (line 88)
after evaluate-then-pipelined-read. -/
def scenario1Pass : Bool :=
  match evaluate ⟨[]⟩ literalExpr with
  | .ok (s, r, _) => decide (read s r = .ok 123)
  | .error _ => false

/-- Scenario 2's assertion: `KJ_ASSERT(response.value == 101)` (line
142). -/
def scenario2Pass : Bool :=
  match evaluate ⟨[]⟩ addSubtractExpr with
  | .ok (s, r, _) => decide (read s r = .ok 101)
  | .error _ => false

/-- Scenario 3's assertions (lines 206–207): evaluate 4*6 leaving the
result unread, evaluate both add requests against its ValueRef, then
read 27 and 29. -/
def scenario3Pass : Bool :=
  match evaluate ⟨[]⟩ multiplyExpr with
  | .ok (s1, _, _) =>
    match evaluate s1 add3Expr with
    | .ok (s2, r3, _) =>
      match evaluate s2 add5Expr with
      | .ok (s3, r5, _) => decide (read s3 r3 = .ok 27) && decide (read s3 r5 = .ok 29)
      | .error _ => false
    | .error _ => false
  | .error _ => false

/-- Scenario 4's assertions (lines 313–314): f(12, 34) reads 1234 and
g(21) reads 4244. -/
def scenario4Pass : Bool :=
  match evaluate ⟨[]⟩ fCallExpr with
  | .ok (s1, rf, _) =>
    match evaluate s1 gCallExpr with
    | .ok (s2, rg, _) => decide (read s2 rf = .ok 1234) && decide (read s2 rg = .ok 4244)
    | .error _ => false
  | .error _ => false

/-- Scenario 5's assertion: `KJ_ASSERT(response.value == 512)` (line
363). -/
def scenario5Pass : Bool :=
  match evaluate ⟨[]⟩ powerExpr with
  | .ok (s, r, _) => decide (read s r = .ok 512)
  | .error _ => false

/-- All five demonstration scenarios' assertions. -/
def scenariosPass : Bool :=
  scenario1Pass && scenario2Pass && scenario3Pass && scenario4Pass && scenario5Pass

/-- Outcome of running `main`: the usage error (argc != 2, lines 45–50),
success (all five scenario assertions pass and `main` returns 0, line
368), or a failed `KJ_ASSERT` aborting the process. -/
inductive MainOutcome where
  | usageError
  | success
  | assertionFailure
deriving DecidableEq

/-- Embedding of `main`'s control flow; `argv` includes the program name
(so C's `argc` is `argv.length`).  With anything other than exactly one
positional argument, `main` prints the usage message and returns 1;
otherwise the five demonstration scenarios run. -/
def runMain (argv : List String) : MainOutcome :=
  if argv.length ≠ 2 then .usageError
  else if scenariosPass then .success
  else .assertionFailure

/-- Process exit status of each outcome: 1 after the usage message, 0 on
success; a failed KJ assertion aborts the process (SIGABRT, observed as
status 134 — the spec requires only that it is nonzero). -/
def exitCode : MainOutcome → Nat
  | .usageError => 1
  | .success => 0
  | .assertionFailure => 134

/-- The transport-level step sequence of scenario 3, in program order:
getOperator(ADD), getOperator(MULTIPLY), evaluate(4*6) (the call node
pipelines the multiply FunctionRef, call 1), evaluate(add(previousResult,
3)) (pipelines the add FunctionRef, call 0, and the unread
multiplyResult ValueRef, call 2), its pipelined read,
evaluate(add(previousResult, 5)) likewise, its pipelined read, and only
then the two waits: both add evaluations are issued before the multiply
result is read or resolved. -/
def scenario3Steps : List Pipeline.Step :=
  [.send [], .send [], .send [1], .send [0, 2], .send [3], .send [0, 2], .send [5],
   .wait, .wait]

end Client

/-- Auxiliary: running a dependent chain of k calls numbered from n, then
the single final wait, issues all k calls legally and records exactly one
exchange and one suspension. -/
theorem Pipeline.run_chainSends (k : Nat) : ∀ n e w,
    Pipeline.run ⟨n, e, w⟩ (Pipeline.chainSends n k ++ [Pipeline.Step.wait])
      = some ⟨n + k, e + 1, w + 1⟩ := by
  induction k with
  | zero => intro n e w; rfl
  | succ k ih =>
    intro n e w
    have hdeps : ((if n = 0 then ([] : List Nat) else [n - 1]).all
        (fun d => decide (d < n))) = true := by
      rcases n with _ | m
      · rfl
      · simp
    have happ : Pipeline.applyStep ⟨n, e, w⟩ (.send (if n = 0 then [] else [n - 1]))
        = some ⟨n + 1, e, w⟩ := by
      simp [Pipeline.applyStep, hdeps]
    have hn : n + 1 + k = n + (k + 1) := by omega
    simp only [Pipeline.chainSends, List.cons_append, List.append_eq, Pipeline.run, happ]
    rw [ih (n + 1) e w, hn]

/-- C3: evaluating `literal(123)` and then invoking `read()` on the
returned ValueRef yields exactly 123. -/
theorem literal_evaluation_reads_123 :
    Calculator.evaluate ⟨[]⟩ Client.literalExpr = .ok (⟨[123]⟩, 0, []) ∧
    Calculator.read ⟨[123]⟩ 0 = .ok 123 :=
  ⟨rfl, rfl⟩

/-- C4: evaluating subtract(add(literal 123, literal 45), literal 67),
with add and subtract obtained from getOperator, and reading the result
yields exactly 101. -/
theorem operator_composition_reads_101 :
    Calculator.evaluate ⟨[]⟩ Client.addSubtractExpr = .ok (⟨[101]⟩, 0, []) ∧
    Calculator.read ⟨[101]⟩ 0 = .ok 101 :=
  ⟨rfl, rfl⟩

/-- C5: with v = evaluate(multiply(4, 6)) left unread (ValueRef handle 0),
evaluating add(previousResult(v), 3) and add(previousResult(v), 5) yields
27 and 29, and the scenario's transport-level program — which issues both
evaluations and their pipelined reads before any wait, hence before v is
read or resolved — is legal and suspends only at the two final waits. -/
theorem deferred_value_reuse_correct :
    Calculator.evaluate ⟨[]⟩ Client.multiplyExpr = .ok (⟨[24]⟩, 0, []) ∧
    Calculator.evaluate ⟨[24]⟩ Client.add3Expr = .ok (⟨[24, 27]⟩, 1, []) ∧
    Calculator.evaluate ⟨[24, 27]⟩ Client.add5Expr = .ok (⟨[24, 27, 29]⟩, 2, []) ∧
    Calculator.read ⟨[24, 27, 29]⟩ 1 = .ok 27 ∧
    Calculator.read ⟨[24, 27, 29]⟩ 2 = .ok 29 ∧
    Pipeline.run Pipeline.init Client.scenario3Steps = some ⟨7, 2, 2⟩ :=
  ⟨rfl, rfl, rfl, rfl, rfl, rfl⟩

/-- C6: with f = defFunction(2, add(multiply(x, 100), y)) and g =
defFunction(1, multiply(f(x, add(x, 1)), 2)), evaluating f(12, 34) yields
1234 and evaluating g(21) yields 4244. -/
theorem user_defined_functions_correct :
    Calculator.evaluate ⟨[]⟩ Client.fCallExpr = .ok (⟨[1234]⟩, 0, []) ∧
    Calculator.read ⟨[1234]⟩ 0 = .ok 1234 ∧
    Calculator.evaluate ⟨[1234]⟩ Client.gCallExpr = .ok (⟨[1234, 4244]⟩, 1, []) ∧
    Calculator.read ⟨[1234, 4244]⟩ 1 = .ok 4244 :=
  ⟨rfl, rfl, rfl, rfl⟩

/-- C1: evaluating call(power, [literal 2, add(literal 4, literal 5)])
with the client-exported PowerFunction and reading the result yields 512,
the callback invocation log shows the client-hosted capability invoked
exactly once, with parameters [2, 9], and PowerFunction.call applied to
[2, 9] produces pow(2, 9) = 512. -/
theorem bidirectional_callback_correct :
    Calculator.evaluate ⟨[]⟩ Client.powerExpr = .ok (⟨[512]⟩, 0, [[2, 9]]) ∧
    Calculator.read ⟨[512]⟩ 0 = .ok 512 ∧
    PowerFunction.call [2, 9] = .ok 512 :=
  ⟨rfl, rfl, rfl⟩

/-- C2: for every chain of k dependent calls built purely from pipelined
promises with a single final wait, the run is legal, the number of
request/response exchanges at the transport boundary is exactly 1 —
independent of k, hence O(1) and not O(k) — and the caller suspends only
once, at the final wait. -/
theorem pipelined_chain_one_exchange (k : Nat) :
    Pipeline.run Pipeline.init (Pipeline.chainProgram k) = some ⟨k, 1, 1⟩ := by
  have h := Pipeline.run_chainSends k 0 0 0
  simpa [Pipeline.chainProgram, Pipeline.init] using h

/-- Witness for C2 at the concrete chain length 5. -/
theorem pipelined_chain_one_exchange_witness :
    Pipeline.run Pipeline.init (Pipeline.chainProgram 5) = some ⟨5, 1, 1⟩ :=
  pipelined_chain_one_exchange 5

/-- C7: invoking the client-exported PowerFunction callback with a
parameter list whose size is not exactly 2 fails with ArityError — it is
never silently truncated or padded — and with a parameter list of size
exactly 2 it does not fail. -/
theorem power_callback_arity (params : List Int) :
    (params.length ≠ 2 → PowerFunction.call params = .error .arityError) ∧
    (params.length = 2 → ∃ v, PowerFunction.call params = .ok v) := by
  constructor
  · intro h
    simp [PowerFunction.call, h]
  · intro h
    simp [PowerFunction.call, h]

/-- Witness for C7: a three-parameter invocation fails with ArityError
and a two-parameter invocation succeeds. -/
theorem power_callback_arity_witness :
    PowerFunction.call [2, 9, 9] = .error .arityError ∧
    ∃ v, PowerFunction.call [2, 9] = .ok v :=
  ⟨(power_callback_arity [2, 9, 9]).1 (by decide),
   (power_callback_arity [2, 9]).2 (by decide)⟩

/-- C10: PowerFunction.call is total and safe on every parameter list:
its error branch is taken exactly when the size differs from 2, and on a
two-element list [a, b] — the only case in which params[0] and params[1]
are read, under the size check — it immediately resolves to pow(a, b)
without further calls. -/
theorem power_callback_safe (params : List Int) :
    (PowerFunction.call params = .error .arityError ↔ params.length ≠ 2) ∧
    (params.length = 2 →
      ∃ a b, params = [a, b] ∧ PowerFunction.call params = .ok (Math.pow a b)) := by
  constructor
  · by_cases h : params.length = 2
    · simp [PowerFunction.call, h]
    · simp [PowerFunction.call, h]
  · intro h
    match params, h with
    | [a, b], _ => exact ⟨a, b, rfl, rfl⟩

/-- Witness for C10 at the concrete invocation [2, 9]. -/
theorem power_callback_safe_witness :
    ((PowerFunction.call [2, 9] = .error .arityError) ↔ (2 ≠ 2)) ∧
    ∃ a b, ([2, 9] : List Int) = [a, b] ∧ PowerFunction.call [2, 9] = .ok (Math.pow a b) :=
  ⟨(power_callback_safe [2, 9]).1, (power_callback_safe [2, 9]).2 (by decide)⟩

/-- C8: the program takes a single positional argument; whenever the
argument count differs from exactly one positional argument it prints the
usage message and exits with code 1, and with exactly one argument all
five demonstration scenarios' assertions pass and it exits with code 0. -/
theorem cli_exit_codes :
    Client.scenariosPass = true ∧
    ∀ argv : List String,
      (argv.length ≠ 2 →
        Client.runMain argv = .usageError ∧ Client.exitCode (Client.runMain argv) = 1) ∧
      (argv.length = 2 →
        Client.runMain argv = .success ∧ Client.exitCode (Client.runMain argv) = 0) := by
  have hs : Client.scenariosPass = true := rfl
  refine ⟨hs, ?_⟩
  intro argv
  constructor
  · intro h
    simp [Client.runMain, h, Client.exitCode]
  · intro h
    simp [Client.runMain, h, hs, Client.exitCode]

/-- Witness for C8: no positional argument exits 1; the single HOST:PORT
argument exits 0. -/
theorem cli_exit_codes_witness :
    Client.runMain ["calculator-client"] = .usageError ∧
    Client.exitCode (Client.runMain ["calculator-client"]) = 1 ∧
    Client.runMain ["calculator-client", "localhost:1234"] = .success ∧
    Client.exitCode (Client.runMain ["calculator-client", "localhost:1234"]) = 0 :=
  ⟨((cli_exit_codes.2 ["calculator-client"]).1 (by decide)).1,
   ((cli_exit_codes.2 ["calculator-client"]).1 (by decide)).2,
   ((cli_exit_codes.2 ["calculator-client", "localhost:1234"]).2 (by decide)).1,
   ((cli_exit_codes.2 ["calculator-client", "localhost:1234"]).2 (by decide)).2⟩

/-- C9: every parameter(i) node in the body of f satisfies i < 2 and
every one in the body of g satisfies i < 1 (the check stops at the
capability boundary of nested calls), and accordingly evaluating
f(12, 34) and g(21) never produces UnboundParameterError. -/
theorem parameter_indices_bounded :
    Calculator.paramsBelow 2 Client.fBody = true ∧
    Calculator.paramsBelow 1 Client.gBody = true ∧
    Calculator.evalExpr [] [] Client.fCallExpr ≠ .error .unboundParameterError ∧
    Calculator.evalExpr [] [] Client.gCallExpr ≠ .error .unboundParameterError :=
  ⟨rfl, rfl, by decide, by decide⟩
